import Mathlib

/-!
# VtuberAgent live-protocol core: a shallow Lean embedding

This file embeds the binary packet codec (`src/live/packet.rs`), the
event parser and the signed REST header builder (`src/live/mod.rs`), and
the live-manager start/stop state machine of the VtuberAgent repository,
and proves the frozen specification claims about them.

Bytes are modelled as `Nat` (each in `[0, 256)` where it matters), byte
buffers as `List Nat`; Rust `u32` casts are explicit `% 2 ^ 32`.  The two
external libraries the codec calls into — zlib decompression (`flate2`)
and JSON parsing (`serde_json`) — are modelled as oracle parameters, so
every theorem quantifies over their behaviour.  The cryptographic hashes
(`md5`, `sha2`, `hmac` crates) implement the published MD5 / SHA-256 /
HMAC algorithms directly, executably, so signatures evaluate by `decide`.
-/

namespace VtuberAgent

/-- Big-endian value of a byte list (`u32::from_be_bytes` /
`u16::from_be_bytes` on 4- resp. 2-byte slices). -/
def beN (l : List Nat) : Nat := l.foldl (fun a b => a * 256 + b) 0

/-- The 4 big-endian bytes of a `u32` value (`u32::to_be_bytes`). -/
def toBe4 (n : Nat) : List Nat :=
  [n / 2 ^ 24 % 256, n / 2 ^ 16 % 256, n / 2 ^ 8 % 256, n % 256]

/-- The 2 big-endian bytes of a `u16` value (`u16::to_be_bytes`). -/
def toBe2 (n : Nat) : List Nat := [n / 2 ^ 8 % 256, n % 256]

/-- `HEADER_LEN` from `packet.rs`. -/
def HEADER_LEN : Nat := 16

/-- `OP_HEARTBEAT` from `packet.rs`. -/
def OP_HEARTBEAT : Nat := 2

/-- `OP_SEND_EVENT` from `packet.rs`. -/
def OP_SEND_EVENT : Nat := 5

/-- `OP_AUTH` from `packet.rs`. -/
def OP_AUTH : Nat := 7

/-- `struct BiliPacket` from `packet.rs`. -/
structure BiliPacket where
  packet_len : Nat
  header_len : Nat
  version : Nat
  operation : Nat
  sequence : Nat
  body : List Nat
deriving Repr, DecidableEq

/-- `encode_packet` from `packet.rs`: 4-byte BE total length (`as u32`
wraps), 2-byte BE header length 16, version 1, the operation, sequence 1,
then the body. -/
def encode_packet (operation : Nat) (body : List Nat) : List Nat :=
  toBe4 ((HEADER_LEN + body.length) % 2 ^ 32) ++ toBe2 HEADER_LEN ++ toBe2 1 ++
    toBe4 (operation % 2 ^ 32) ++ toBe4 1 ++ body

/-- Outcomes of `decode_packets` other than success.  `protocol` is the
`?`-propagated zlib error; `panicked` models the Rust slice panic
`data[body_start..body_end]` when `body_start > body_end`;
`depthExceeded` is an artifact of indexing the (unbounded) Rust
decompression recursion by an explicit depth. -/
inductive DecodeError where
  | protocol
  | panicked
  | depthExceeded
deriving Repr, DecidableEq


/-- The scan loop of `decode_packets` from `packet.rs`, parameterized by
`nested`, the decoder applied to the decompressed body of a `version = 2`
frame.  The scan works on the suffix of the input from the current
offset: the loop condition `offset + 16 <= data.len()` is
`16 ≤ data.length`, the `break` on
`packet_len == 0 || offset + packet_len > data.len()` returns the frames
collected so far, and `offset += packet_len` is `data.drop packet_len`.
`inflate` is the zlib oracle (`none` = decompression failure). -/
def scan_packets (inflate : List Nat → Option (List Nat))
    (nested : List Nat → Except DecodeError (List BiliPacket))
    (data : List Nat) : Except DecodeError (List BiliPacket) :=
  if h16 : HEADER_LEN ≤ data.length then
    let packet_len := beN (data.take 4)
    if hstop : packet_len = 0 ∨ data.length < packet_len then
      Except.ok []
    else
      let header_len := beN ((data.drop 4).take 2)
      if packet_len < header_len then
        Except.error DecodeError.panicked
      else
        let body := (data.take packet_len).drop header_len
        let head :=
          if beN ((data.drop 6).take 2) = 2 then
            match inflate body with
            | none => Except.error DecodeError.protocol
            | some decoded => nested decoded
          else
            Except.ok [⟨packet_len, header_len, beN ((data.drop 6).take 2),
              beN ((data.drop 8).take 4), beN ((data.drop 12).take 4), body⟩]
        match head with
        | Except.error e => Except.error e
        | Except.ok packets =>
          match scan_packets inflate nested (data.drop packet_len) with
          | Except.error e => Except.error e
          | Except.ok more => Except.ok (packets ++ more)
  else Except.ok []
termination_by data.length
decreasing_by
  have hlen : 16 ≤ data.length := h16
  simp only [List.length_drop]
  omega

/-- `decode_packets` from `packet.rs`, indexed by the zlib oracle and by
a recursion depth bounding how many nested `version = 2` containers may
be opened (the Rust recursion carries no explicit bound; every claim
below holds for every sufficient depth). -/
def decode_packets (inflate : List Nat → Option (List Nat)) :
    Nat → List Nat → Except DecodeError (List BiliPacket)
  | 0 => scan_packets inflate (fun _ => Except.error DecodeError.depthExceeded)
  | d + 1 => scan_packets inflate (decode_packets inflate d)

/-- Fewer than 16 bytes remain: the scan stops with the frames seen so
far. -/
theorem scan_packets_short (inflate : List Nat → Option (List Nat))
    (nested : List Nat → Except DecodeError (List BiliPacket)) (data : List Nat)
    (h : data.length < 16) :
    scan_packets inflate nested data = Except.ok [] := by
  rw [scan_packets.eq_def]
  rw [dif_neg]
  simp only [HEADER_LEN]
  omega

/-- A declared `total_len` of zero, or one that runs past the end of the
input, stops the scan. -/
theorem scan_packets_stop (inflate : List Nat → Option (List Nat))
    (nested : List Nat → Except DecodeError (List BiliPacket)) (data : List Nat)
    (h16 : 16 ≤ data.length)
    (h : beN (data.take 4) = 0 ∨ data.length < beN (data.take 4)) :
    scan_packets inflate nested data = Except.ok [] := by
  rw [scan_packets.eq_def]
  rw [dif_pos (show HEADER_LEN ≤ data.length from h16), dif_pos h]

/-- One scan step over a complete frame whose version is not 2: the
frame is emitted and the offset advances by exactly `packet_len`. -/
theorem scan_packets_step (inflate : List Nat → Option (List Nat))
    (nested : List Nat → Except DecodeError (List BiliPacket)) (data : List Nat)
    (h16 : 16 ≤ data.length)
    (hpl0 : beN (data.take 4) ≠ 0)
    (hple : beN (data.take 4) ≤ data.length)
    (hhl : beN ((data.drop 4).take 2) ≤ beN (data.take 4))
    (hv : beN ((data.drop 6).take 2) ≠ 2) :
    scan_packets inflate nested data =
      (scan_packets inflate nested (data.drop (beN (data.take 4)))).map
        (fun more =>
          (⟨beN (data.take 4), beN ((data.drop 4).take 2), beN ((data.drop 6).take 2),
            beN ((data.drop 8).take 4), beN ((data.drop 12).take 4),
            (data.take (beN (data.take 4))).drop (beN ((data.drop 4).take 2))⟩ : BiliPacket) :: more) := by
  rw [scan_packets.eq_def]
  rw [dif_pos (show HEADER_LEN ≤ data.length from h16)]
  rw [dif_neg (show ¬(beN (data.take 4) = 0 ∨ data.length < beN (data.take 4)) by
    push_neg; exact ⟨hpl0, hple⟩)]
  rw [if_neg (show ¬beN (data.take 4) < beN ((data.drop 4).take 2) by omega)]
  cases hres : scan_packets inflate nested (data.drop (beN (data.take 4))) <;>
    simp [hv, hres, Except.map]

/-- A complete frame whose declared `header_len` exceeds its declared
`total_len` makes the Rust body slice `data[body_start..body_end]` panic
(`body_start > body_end`). -/
theorem scan_packets_panic (inflate : List Nat → Option (List Nat))
    (nested : List Nat → Except DecodeError (List BiliPacket)) (data : List Nat)
    (h16 : 16 ≤ data.length)
    (hpl0 : beN (data.take 4) ≠ 0)
    (hple : beN (data.take 4) ≤ data.length)
    (hhl : beN (data.take 4) < beN ((data.drop 4).take 2)) :
    scan_packets inflate nested data = Except.error DecodeError.panicked := by
  rw [scan_packets.eq_def]
  rw [dif_pos (show HEADER_LEN ≤ data.length from h16)]
  rw [dif_neg (show ¬(beN (data.take 4) = 0 ∨ data.length < beN (data.take 4)) by
    push_neg; exact ⟨hpl0, hple⟩)]
  rw [if_pos hhl]

/-- One scan step over a complete `version = 2` frame whose body fails
to decompress: the zlib error propagates out of the whole call. -/
theorem scan_packets_v2_none (inflate : List Nat → Option (List Nat))
    (nested : List Nat → Except DecodeError (List BiliPacket)) (data : List Nat)
    (h16 : 16 ≤ data.length)
    (hpl0 : beN (data.take 4) ≠ 0)
    (hple : beN (data.take 4) ≤ data.length)
    (hhl : beN ((data.drop 4).take 2) ≤ beN (data.take 4))
    (hv : beN ((data.drop 6).take 2) = 2)
    (hinf : inflate ((data.take (beN (data.take 4))).drop (beN ((data.drop 4).take 2))) = none) :
    scan_packets inflate nested data = Except.error DecodeError.protocol := by
  rw [scan_packets.eq_def]
  rw [dif_pos (show HEADER_LEN ≤ data.length from h16)]
  rw [dif_neg (show ¬(beN (data.take 4) = 0 ∨ data.length < beN (data.take 4)) by
    push_neg; exact ⟨hpl0, hple⟩)]
  rw [if_neg (show ¬beN (data.take 4) < beN ((data.drop 4).take 2) by omega)]
  simp [hv, hinf]

/-- One scan step over a complete `version = 2` frame that decompresses
and whose decompressed bytes decode to `inner`: the nested frames are
spliced in, the container frame is not emitted, and the offset advances
by exactly `packet_len`. -/
theorem scan_packets_v2_some (inflate : List Nat → Option (List Nat))
    (nested : List Nat → Except DecodeError (List BiliPacket)) (data : List Nat)
    (decoded : List Nat) (inner : List BiliPacket)
    (h16 : 16 ≤ data.length)
    (hpl0 : beN (data.take 4) ≠ 0)
    (hple : beN (data.take 4) ≤ data.length)
    (hhl : beN ((data.drop 4).take 2) ≤ beN (data.take 4))
    (hv : beN ((data.drop 6).take 2) = 2)
    (hinf : inflate ((data.take (beN (data.take 4))).drop (beN ((data.drop 4).take 2))) =
      some decoded)
    (hnested : nested decoded = Except.ok inner) :
    scan_packets inflate nested data =
      (scan_packets inflate nested (data.drop (beN (data.take 4)))).map
        (fun more => inner ++ more) := by
  rw [scan_packets.eq_def]
  rw [dif_pos (show HEADER_LEN ≤ data.length from h16)]
  rw [dif_neg (show ¬(beN (data.take 4) = 0 ∨ data.length < beN (data.take 4)) by
    push_neg; exact ⟨hpl0, hple⟩)]
  rw [if_neg (show ¬beN (data.take 4) < beN ((data.drop 4).take 2) by omega)]
  cases hres : scan_packets inflate nested (data.drop (beN (data.take 4))) <;>
    simp [hv, hinf, hnested, hres, Except.map]

/-- Reading back the 4 big-endian bytes of a value below `2 ^ 32`
recovers the value. -/
theorem beN_toBe4 (n : Nat) (h : n < 2 ^ 32) : beN (toBe4 n) = n := by
  simp only [beN, toBe4, List.foldl]
  omega

/-- An encoded packet is its 16 header bytes followed by the body. -/
theorem encode_packet_eq (op : Nat) (body : List Nat) :
    encode_packet op body =
      toBe4 ((16 + body.length) % 2 ^ 32) ++
        ([0, 16] ++ ([0, 1] ++ (toBe4 (op % 2 ^ 32) ++ ([0, 0, 0, 1] ++ body)))) := by
  simp [encode_packet, toBe2, toBe4, HEADER_LEN]

/-- Length of an encoded packet. -/
theorem length_encode_packet (op : Nat) (body : List Nat) :
    (encode_packet op body).length = 16 + body.length := by
  simp [encode_packet, toBe2, toBe4, HEADER_LEN]
  omega

/-- Dropping the 16 header bytes of an encoded packet leaves the body. -/
theorem drop16_encode_packet (op : Nat) (body : List Nat) :
    (encode_packet op body).drop 16 = body := by
  simp [encode_packet_eq, toBe4, List.drop_append]

/-- One scan step over an encoded packet sitting in front of arbitrary
further bytes. -/
theorem scan_packets_encode_cons (inflate : List Nat → Option (List Nat))
    (nested : List Nat → Except DecodeError (List BiliPacket))
    (op : Nat) (body rest : List Nat)
    (hop : op < 2 ^ 32) (hlen : 16 + body.length < 2 ^ 32) :
    scan_packets inflate nested (encode_packet op body ++ rest) =
      (scan_packets inflate nested rest).map
        (fun more =>
          (⟨16 + body.length, 16, 1, op, 1, body⟩ : BiliPacket) :: more) := by
  have hEL : (encode_packet op body).length = 16 + body.length :=
    length_encode_packet op body
  have hmod : (16 + body.length) % 2 ^ 32 = 16 + body.length := Nat.mod_eq_of_lt hlen
  have hopmod : op % 2 ^ 32 = op := Nat.mod_eq_of_lt hop
  have hE : encode_packet op body =
      toBe4 (16 + body.length) ++
        ([0, 16] ++ ([0, 1] ++ (toBe4 op ++ ([0, 0, 0, 1] ++ body)))) := by
    rw [encode_packet_eq, hmod, hopmod]
  have h1 : (encode_packet op body ++ rest).take 4 = toBe4 (16 + body.length) := by
    rw [hE, toBe4]
    simp
  have hbeN1 : beN ((encode_packet op body ++ rest).take 4) = 16 + body.length := by
    rw [h1, beN_toBe4 _ hlen]
  have h2 : ((encode_packet op body ++ rest).drop 4).take 2 = [0, 16] := by
    rw [hE, toBe4]
    simp
  have h3 : ((encode_packet op body ++ rest).drop 6).take 2 = [0, 1] := by
    rw [hE, toBe4]
    simp
  have h4 : ((encode_packet op body ++ rest).drop 8).take 4 = toBe4 op := by
    rw [hE, toBe4, toBe4]
    simp
  have h5 : ((encode_packet op body ++ rest).drop 12).take 4 = [0, 0, 0, 1] := by
    rw [hE, toBe4, toBe4]
    simp
  have h6 : (encode_packet op body ++ rest).take (16 + body.length) = encode_packet op body := by
    rw [List.take_append_of_le_length (by omega), List.take_of_length_le (by omega)]
  have h8 : (encode_packet op body ++ rest).drop (16 + body.length) = rest := by
    rw [List.drop_append_of_le_length (by omega), List.drop_of_length_le (by omega)]
    simp
  rw [scan_packets_step inflate nested (encode_packet op body ++ rest)
    (by simp; omega)
    (by rw [hbeN1]; omega)
    (by rw [hbeN1]; simp; omega)
    (by rw [hbeN1, h2]; simp [beN])
    (by rw [h3]; simp [beN])]
  rw [hbeN1, h2, h3, h4, h5, h6, h8]
  have e1 : beN [0, 16] = 16 := by norm_num [beN]
  have e2 : beN [0, 1] = 1 := by norm_num [beN]
  have e3 : beN [0, 0, 0, 1] = 1 := by norm_num [beN]
  rw [e1, e2, e3, beN_toBe4 op hop, drop16_encode_packet]


/-- Serialized form of a list of `(operation, body)` pairs: the encoded
packets back to back, followed by a trailing buffer. -/
def encode_all (L : List (Nat × List Nat)) (tail : List Nat) : List Nat :=
  L.foldr (fun p acc => encode_packet p.1 p.2 ++ acc) tail

/-- The frame `encode_packet op body` round-trips to. -/
def encoded_frame (op : Nat) (body : List Nat) : BiliPacket :=
  ⟨16 + body.length, 16, 1, op, 1, body⟩

/-- Scanning encoded packets in front of a trailing buffer on which the
scan stops empty yields exactly the corresponding frames. -/
theorem scan_packets_encode_all (inflate : List Nat → Option (List Nat))
    (nested : List Nat → Except DecodeError (List BiliPacket))
    (L : List (Nat × List Nat)) (tail : List Nat)
    (hL : ∀ p ∈ L, p.1 < 2 ^ 32 ∧ 16 + p.2.length < 2 ^ 32)
    (htail : scan_packets inflate nested tail = Except.ok []) :
    scan_packets inflate nested (encode_all L tail) =
      Except.ok (L.map fun p => encoded_frame p.1 p.2) := by
  induction L with
  | nil => simpa [encode_all] using htail
  | cons p L ih =>
    have hp := hL p (by simp)
    have hrest : ∀ q ∈ L, q.1 < 2 ^ 32 ∧ 16 + q.2.length < 2 ^ 32 := by
      intro q hq
      exact hL q (by simp [hq])
    simp only [encode_all, List.foldr_cons]
    rw [scan_packets_encode_cons inflate nested p.1 p.2 _ hp.1 hp.2]
    rw [show L.foldr (fun p acc => encode_packet p.1 p.2 ++ acc) tail = encode_all L tail from rfl,
      ih hrest]
    simp [Except.map, encoded_frame]

/-- A trailing buffer that is an incomplete frame (fewer than 16 bytes,
or a declared total length running past the end) stops the scan empty. -/
theorem scan_packets_incomplete_tail (inflate : List Nat → Option (List Nat))
    (nested : List Nat → Except DecodeError (List BiliPacket)) (tail : List Nat)
    (htail : tail.length < 16 ∨ tail.length < beN (tail.take 4)) :
    scan_packets inflate nested tail = Except.ok [] := by
  by_cases h16 : 16 ≤ tail.length
  · rcases htail with h | h
    · omega
    · exact scan_packets_stop inflate nested tail h16 (Or.inr h)
  · exact scan_packets_short inflate nested tail (by omega)

/-- Lift a scan-level equation to `decode_packets` at every depth. -/
theorem decode_packets_of_scan (inflate : List Nat → Option (List Nat)) (depth : Nat)
    (data : List Nat) (r : Except DecodeError (List BiliPacket))
    (h : ∀ nested, scan_packets inflate nested data = r) :
    decode_packets inflate depth data = r := by
  cases depth <;> simp only [decode_packets] <;> exact h _

/-- C2 (amended): provided `16 + len(body)` fits in `u32` (the length
field is written `as u32`), `decode(encode(op, body))` returns exactly
one frame with `operation = op`, `body = body`, `version = 1`,
`sequence = 1`, `header_len = 16` and `total_len = 16 + len(body)`, at
every recursion depth and for every zlib oracle. -/
theorem claim_c2_roundtrip (inflate : List Nat → Option (List Nat)) (depth op : Nat)
    (body : List Nat) (hop : op < 2 ^ 32) (hlen : 16 + body.length < 2 ^ 32) :
    decode_packets inflate depth (encode_packet op body) =
      Except.ok [⟨16 + body.length, 16, 1, op, 1, body⟩] := by
  apply decode_packets_of_scan
  intro nested
  rw [← List.append_nil (encode_packet op body)]
  rw [scan_packets_encode_cons inflate nested op body [] hop hlen]
  rw [scan_packets_short inflate nested [] (by simp)]
  rfl

/-- Witness for C2 at `op = 5`, `body = [9]`. -/
theorem claim_c2_roundtrip_witness :
    decode_packets (fun _ => none) 0 (encode_packet 5 [9]) =
      Except.ok [⟨17, 16, 1, 5, 1, [9]⟩] := by
  have h := claim_c2_roundtrip (fun _ => none) 0 5 [9] (by norm_num) (by norm_num)
  simpa using h

/-- First four bytes of a length-prefixed buffer. -/
theorem take4_toBe4_append (n : Nat) (rest : List Nat) :
    (toBe4 n ++ rest).take 4 = toBe4 n := by
  simp [toBe4]

/-- C2 counterexample: for the (2^32 - 16)-byte body, the `as u32`
total-length field wraps to zero, so decode emits no frame at all
instead of the one frame with that body that the claim promises. -/
theorem claim_c2_counterexample :
    ¬ ∃ p : BiliPacket,
        decode_packets (fun _ => none) 0
            (encode_packet 5 (List.replicate (2 ^ 32 - 16) 0)) =
          Except.ok [p] := by
  rintro ⟨p, hp⟩
  have hlen : (List.replicate (2 ^ 32 - 16) (0 : Nat)).length = 2 ^ 32 - 16 :=
    List.length_replicate _ _
  have heval : decode_packets (fun _ => none) 0
      (encode_packet 5 (List.replicate (2 ^ 32 - 16) 0)) = Except.ok [] := by
    apply decode_packets_of_scan
    intro nested
    apply scan_packets_stop
    · rw [length_encode_packet]
      exact Nat.le_add_right 16 _
    · left
      have h4 : (encode_packet 5 (List.replicate (2 ^ 32 - 16) 0)).take 4 =
          toBe4 ((16 + (2 ^ 32 - 16)) % 2 ^ 32) := by
        rw [encode_packet_eq, hlen]
        exact take4_toBe4_append _ _
      rw [h4]
      norm_num [toBe4, beN]
  rw [heval] at hp
  simp at hp

/-- C3 (amended): on a buffer consisting of complete encoded frames
followed by a trailing incomplete frame (fewer than 16 remaining bytes,
or a declared total length running past the end of the input), decode
returns exactly the complete frames and emits no partial frame, at
every depth and for every zlib oracle.  (The unqualified "never
panics" part of the claim is refuted by `claim_c3_counterexample`.) -/
theorem claim_c3_truncation (inflate : List Nat → Option (List Nat)) (depth : Nat)
    (L : List (Nat × List Nat)) (tail : List Nat)
    (hL : ∀ p ∈ L, p.1 < 2 ^ 32 ∧ 16 + p.2.length < 2 ^ 32)
    (htail : tail.length < 16 ∨ tail.length < beN (tail.take 4)) :
    decode_packets inflate depth (encode_all L tail) =
      Except.ok (L.map fun p => encoded_frame p.1 p.2) := by
  apply decode_packets_of_scan
  intro nested
  exact scan_packets_encode_all inflate nested L tail hL
    (scan_packets_incomplete_tail inflate nested tail htail)

/-- Witness for C3: two complete frames followed by a five-byte tail. -/
theorem claim_c3_truncation_witness :
    decode_packets (fun _ => none) 0
        (encode_all [(7, [1, 2]), (2, [])] [0, 0, 0, 200, 1]) =
      Except.ok [encoded_frame 7 [1, 2], encoded_frame 2 []] := by
  have h := claim_c3_truncation (fun _ => none) 0 [(7, [1, 2]), (2, [])]
    [0, 0, 0, 200, 1] (by decide) (by decide)
  simpa using h

/-- C3 counterexample: a single complete 16-byte frame that declares
`header_len = 17 > total_len = 16` drives the Rust body slice
`data[body_start..body_end]` into a panic (`body_start > body_end`), so
decode does not return at all on this input; the claim promised no
panic on any input. -/
theorem claim_c3_counterexample :
    decode_packets (fun _ => none) 0
        [0, 0, 0, 16, 0, 17, 0, 1, 0, 0, 0, 5, 0, 0, 0, 1] =
      Except.error DecodeError.panicked := by
  apply decode_packets_of_scan
  intro nested
  apply scan_packets_panic <;> decide

/-- C5: the scan advances by exactly the declared `total_len` at every
step (both for a plain frame and for a successfully flattened
`version = 2` frame), and a declared `total_len = 0` stops the scan,
so decode terminates rather than looping on such a frame. -/
theorem claim_c5_offset_advance :
    (∀ (inflate : List Nat → Option (List Nat)) (depth : Nat) (data : List Nat),
        16 ≤ data.length → beN (data.take 4) ≠ 0 → beN (data.take 4) ≤ data.length →
        beN ((data.drop 4).take 2) ≤ beN (data.take 4) →
        beN ((data.drop 6).take 2) ≠ 2 →
        decode_packets inflate depth data =
          (decode_packets inflate depth (data.drop (beN (data.take 4)))).map
            (fun more => (⟨beN (data.take 4), beN ((data.drop 4).take 2),
              beN ((data.drop 6).take 2), beN ((data.drop 8).take 4),
              beN ((data.drop 12).take 4),
              (data.take (beN (data.take 4))).drop (beN ((data.drop 4).take 2))⟩ :
                BiliPacket) :: more)) ∧
    (∀ (inflate : List Nat → Option (List Nat)) (d : Nat) (data decoded : List Nat)
        (inner : List BiliPacket),
        16 ≤ data.length → beN (data.take 4) ≠ 0 → beN (data.take 4) ≤ data.length →
        beN ((data.drop 4).take 2) ≤ beN (data.take 4) →
        beN ((data.drop 6).take 2) = 2 →
        inflate ((data.take (beN (data.take 4))).drop (beN ((data.drop 4).take 2))) =
          some decoded →
        decode_packets inflate d decoded = Except.ok inner →
        decode_packets inflate (d + 1) data =
          (decode_packets inflate (d + 1) (data.drop (beN (data.take 4)))).map
            (fun more => inner ++ more)) ∧
    (∀ (inflate : List Nat → Option (List Nat)) (depth : Nat) (data : List Nat),
        16 ≤ data.length → beN (data.take 4) = 0 →
        decode_packets inflate depth data = Except.ok []) := by
  refine ⟨?_, ?_, ?_⟩
  · intro inflate depth data h16 h0 hle hhl hv
    cases depth <;> simp only [decode_packets] <;>
      exact scan_packets_step _ _ data h16 h0 hle hhl hv
  · intro inflate d data decoded inner h16 h0 hle hhl hv hinf hnested
    simp only [decode_packets]
    exact scan_packets_v2_some _ _ data decoded inner h16 h0 hle hhl hv hinf hnested
  · intro inflate depth data h16 h0
    exact decode_packets_of_scan _ _ _ _
      (fun nested => scan_packets_stop _ nested _ h16 (Or.inl h0))

/-- Witness for C5: a step on a plain 16-byte heartbeat frame, a step
on a version-2 container with empty flattened contents, and the stop on
a zero `total_len`. -/
theorem claim_c5_offset_advance_witness :
    (decode_packets (fun _ => none) 0 [0, 0, 0, 16, 0, 16, 0, 1, 0, 0, 0, 2, 0, 0, 0, 1] =
        (decode_packets (fun _ => none) 0 ([] : List Nat)).map
          (fun more => (⟨16, 16, 1, 2, 1, []⟩ : BiliPacket) :: more)) ∧
    (decode_packets (fun b => if b = [9] then some [] else none) 1
        [0, 0, 0, 17, 0, 16, 0, 2, 0, 0, 0, 5, 0, 0, 0, 1, 9] =
        (decode_packets (fun b => if b = [9] then some [] else none) 1 ([] : List Nat)).map
          (fun more => [] ++ more)) ∧
    (decode_packets (fun _ => none) 0 [0, 0, 0, 0, 0, 16, 0, 1, 0, 0, 0, 2, 0, 0, 0, 1] =
        Except.ok []) := by
  refine ⟨?_, ?_, ?_⟩
  · have h := claim_c5_offset_advance.1 (fun _ => none) 0
      [0, 0, 0, 16, 0, 16, 0, 1, 0, 0, 0, 2, 0, 0, 0, 1]
      (by decide) (by decide) (by decide) (by decide) (by decide)
    simpa [beN] using h
  · have hnested : decode_packets (fun b => if b = [9] then some [] else none) 0 [] =
        Except.ok [] :=
      decode_packets_of_scan _ 0 [] _
        (fun nested => scan_packets_short _ nested [] (by simp))
    have h := claim_c5_offset_advance.2.1 (fun b => if b = [9] then some [] else none) 0
      [0, 0, 0, 17, 0, 16, 0, 2, 0, 0, 0, 5, 0, 0, 0, 1, 9] [] []
      (by decide) (by decide) (by decide) (by decide) (by decide) (by decide) hnested
    simpa [beN] using h
  · exact claim_c5_offset_advance.2.2 (fun _ => none) 0 _ (by decide) (by decide)

/-- Wire bytes of a frame laid out per the protocol's fixed 16-byte
header format; used to build `version = 2` container frames, which
`encode_packet` itself never produces. -/
def raw_packet (packet_len header_len version operation sequence : Nat)
    (body : List Nat) : List Nat :=
  toBe4 packet_len ++ toBe2 header_len ++ toBe2 version ++ toBe4 operation ++
    toBe4 sequence ++ body

/-- C4: a `version = 2` frame whose body decompresses to the
concatenation of N valid `version = 1` frames decodes to exactly those
N frames in order, without emitting the container frame; a
decompression failure makes the whole decode call return the protocol
error instead of a partial result. -/
theorem claim_c4_flatten :
    (∀ (inflate : List Nat → Option (List Nat)) (d op seq : Nat) (cbody : List Nat)
        (L : List (Nat × List Nat)),
        16 + cbody.length < 2 ^ 32 →
        inflate cbody = some (encode_all L []) →
        (∀ p ∈ L, p.1 < 2 ^ 32 ∧ 16 + p.2.length < 2 ^ 32) →
        decode_packets inflate (d + 1)
            (raw_packet (16 + cbody.length) 16 2 op seq cbody) =
          Except.ok (L.map fun p => encoded_frame p.1 p.2)) ∧
    (∀ (inflate : List Nat → Option (List Nat)) (depth op seq : Nat) (cbody : List Nat),
        16 + cbody.length < 2 ^ 32 →
        inflate cbody = none →
        decode_packets inflate depth
            (raw_packet (16 + cbody.length) 16 2 op seq cbody) =
          Except.error DecodeError.protocol) := by
  have layout : ∀ (op seq : Nat) (cbody : List Nat),
      raw_packet (16 + cbody.length) 16 2 op seq cbody =
        toBe4 (16 + cbody.length) ++
          ([0, 16] ++ ([0, 2] ++ (toBe4 op ++ (toBe4 seq ++ cbody)))) := by
    intro op seq cbody
    simp [raw_packet, toBe2]
  have hfacts : ∀ (op seq : Nat) (cbody : List Nat), 16 + cbody.length < 2 ^ 32 →
      (raw_packet (16 + cbody.length) 16 2 op seq cbody).length = 16 + cbody.length ∧
      beN ((raw_packet (16 + cbody.length) 16 2 op seq cbody).take 4) = 16 + cbody.length ∧
      ((raw_packet (16 + cbody.length) 16 2 op seq cbody).drop 4).take 2 = [0, 16] ∧
      ((raw_packet (16 + cbody.length) 16 2 op seq cbody).drop 6).take 2 = [0, 2] ∧
      ((raw_packet (16 + cbody.length) 16 2 op seq cbody).take
          (16 + cbody.length)).drop 16 = cbody ∧
      (raw_packet (16 + cbody.length) 16 2 op seq cbody).drop (16 + cbody.length) = [] := by
    intro op seq cbody hlen
    have hE := layout op seq cbody
    have hL : (raw_packet (16 + cbody.length) 16 2 op seq cbody).length =
        16 + cbody.length := by
      rw [hE, toBe4, toBe4, toBe4]
      simp
      omega
    refine ⟨hL, ?_, ?_, ?_, ?_, ?_⟩
    · rw [hE, take4_toBe4_append, beN_toBe4 _ hlen]
    · rw [hE, toBe4]
      simp
    · rw [hE, toBe4]
      simp
    · rw [List.take_of_length_le (le_of_eq hL), hE, toBe4, toBe4, toBe4]
      simp
    · exact List.drop_of_length_le (le_of_eq hL)
  constructor
  · intro inflate d op seq cbody L hlen hinf hL
    obtain ⟨hlenq, h1, h2, h3, hbody, hdrop⟩ := hfacts op seq cbody hlen
    have hnested : decode_packets inflate d (encode_all L []) =
        Except.ok (L.map fun p => encoded_frame p.1 p.2) := by
      apply decode_packets_of_scan
      intro nested
      exact scan_packets_encode_all inflate nested L [] hL
        (scan_packets_short inflate nested [] (by simp))
    simp only [decode_packets]
    rw [scan_packets_v2_some inflate (decode_packets inflate d) _ (encode_all L [])
      (L.map fun p => encoded_frame p.1 p.2)
      (by rw [hlenq]; omega) (by rw [h1]; omega) (by rw [h1, hlenq])
      (by rw [h1, h2]; norm_num [beN]) (by rw [h3]; norm_num [beN])
      (by rw [h1, h2]; norm_num [beN]; rw [hbody]; exact hinf) hnested]
    rw [h1, hdrop]
    rw [scan_packets_short inflate _ [] (by simp)]
    simp [Except.map]
  · intro inflate depth op seq cbody hlen hinf
    obtain ⟨hlenq, h1, h2, h3, hbody, hdrop⟩ := hfacts op seq cbody hlen
    apply decode_packets_of_scan
    intro nested
    apply scan_packets_v2_none inflate nested _
      (by rw [hlenq]; omega) (by rw [h1]; omega) (by rw [h1, hlenq])
      (by rw [h1, h2]; norm_num [beN]) (by rw [h3]; norm_num [beN])
    rw [h1, h2]
    norm_num [beN]
    rw [hbody]
    exact hinf

/-- Witness for C4: a 17-byte version-2 container whose body inflates to
one encoded frame, and the same container with a failing inflater. -/
theorem claim_c4_flatten_witness :
    (decode_packets
        (fun b => if b = [7] then some (encode_all [(5, [1])] []) else none) 1
        (raw_packet 17 16 2 5 1 [7]) = Except.ok [encoded_frame 5 [1]]) ∧
    (decode_packets (fun _ => none) 0 (raw_packet 17 16 2 5 1 [7]) =
        Except.error DecodeError.protocol) := by
  constructor
  · have h := claim_c4_flatten.1
      (fun b => if b = [7] then some (encode_all [(5, [1])] []) else none)
      0 5 1 [7] [(5, [1])] (by decide) (by decide) (by decide)
    simpa using h
  · have h := claim_c4_flatten.2 (fun _ => none) 0 5 1 [7] (by decide) (by decide)
    simpa using h

/-- Minimal stand-in for `serde_json::Value` (the dispatcher treats the
payload opaquely; parsing itself is an oracle). -/
inductive Json where
  | null
  | bool (b : Bool)
  | num (n : Int)
  | str (s : String)
deriving Repr, DecidableEq

/-- `LiveEvent` from `live/mod.rs`: the `cmd` discriminator plus the
JSON payload. -/
structure LiveEvent where
  cmd : String
  data : Json
deriving Repr, DecidableEq

/-- Rust `slice::split(|b| *b == 0)`: the segments between zero bytes
(`n` separators yield `n + 1` segments, empty segments included). -/
def splitOnZero : List Nat → List (List Nat)
  | [] => [[]]
  | 0 :: rest => [] :: splitOnZero rest
  | b :: rest =>
    match splitOnZero rest with
    | [] => [[b]]
    | s :: ss => (b :: s) :: ss

/-- `parse_events` from `live/mod.rs`, with the JSON parse
(`serde_json::from_slice::<LiveMessage>`) as the oracle `parse`
(`none` = malformed document): the packet body is split at zero bytes,
empty chunks are skipped, each chunk is parsed independently, a parsed
event is pushed and a malformed chunk is logged and skipped.  The
function itself always returns `Ok`, so it is modelled as returning the
event list directly. -/
def parse_events (parse : List Nat → Option LiveEvent) (packet : BiliPacket) :
    List LiveEvent :=
  (splitOnZero packet.body).foldl
    (fun events chunk =>
      if chunk.isEmpty then events
      else
        match parse chunk with
        | some message => events ++ [message]
        | none => events) []

/-- A zero-free segment is one whole chunk of the split. -/
theorem splitOnZero_no_zero (c : List Nat) (hc : ¬ 0 ∈ c) :
    splitOnZero c = [c] := by
  induction c with
  | nil => rfl
  | cons b rest ih =>
    have hb : b ≠ 0 := by
      intro h
      exact hc (by simp [h])
    have hrest : ¬ 0 ∈ rest := by
      intro h
      exact hc (by simp [h])
    cases b with
    | zero => exact absurd rfl hb
    | succ n =>
      simp [splitOnZero, ih hrest]

/-- Splitting at the first zero byte after a zero-free segment. -/
theorem splitOnZero_append_zero (c rest : List Nat) (hc : ¬ 0 ∈ c) :
    splitOnZero (c ++ 0 :: rest) = c :: splitOnZero rest := by
  induction c with
  | nil => simp [splitOnZero]
  | cons b tl ih =>
    have hb : b ≠ 0 := by
      intro h
      exact hc (by simp [h])
    have htl : ¬ 0 ∈ tl := by
      intro h
      exact hc (by simp [h])
    cases b with
    | zero => exact absurd rfl hb
    | succ n =>
      rw [List.cons_append]
      simp [splitOnZero, ih htl]


/-- C6: a SEND_EVENT body is split at zero bytes and each segment is
parsed independently; with three zero-delimited documents of which the
middle one is malformed, exactly the two events of the valid documents
are produced, in order. -/
theorem claim_c6_malformed_segment_skipped (parse : List Nat → Option LiveEvent)
    (packet : BiliPacket) (c1 c2 c3 : List Nat) (e1 e3 : LiveEvent)
    (hbody : packet.body = c1 ++ 0 :: (c2 ++ 0 :: c3))
    (h1z : ¬ 0 ∈ c1) (h2z : ¬ 0 ∈ c2) (h3z : ¬ 0 ∈ c3)
    (h1ne : c1 ≠ []) (h2ne : c2 ≠ []) (h3ne : c3 ≠ [])
    (hp1 : parse c1 = some e1) (hp2 : parse c2 = none) (hp3 : parse c3 = some e3) :
    parse_events parse packet = [e1, e3] := by
  have hsplit : splitOnZero packet.body = [c1, c2, c3] := by
    rw [hbody, splitOnZero_append_zero c1 _ h1z, splitOnZero_append_zero c2 _ h2z,
      splitOnZero_no_zero c3 h3z]
  have hie1 : c1.isEmpty = false := by
    cases c1 with
    | nil => exact absurd rfl h1ne
    | cons a l => rfl
  have hie2 : c2.isEmpty = false := by
    cases c2 with
    | nil => exact absurd rfl h2ne
    | cons a l => rfl
  have hie3 : c3.isEmpty = false := by
    cases c3 with
    | nil => exact absurd rfl h3ne
    | cons a l => rfl
  rw [parse_events, hsplit]
  simp [hie1, hie2, hie3, hp1, hp2, hp3, h1ne, h2ne, h3ne]

/-- Witness for C6: body `"1" 0x00 "2" 0x00 "3"` where only the first
and third chunks parse. -/
theorem claim_c6_malformed_segment_skipped_witness :
    parse_events
      (fun c =>
        if c = [49] then some ⟨"a", Json.null⟩
        else if c = [51] then some ⟨"b", Json.null⟩ else none)
      ⟨21, 16, 1, 5, 1, [49, 0, 50, 0, 51]⟩ =
      [⟨"a", Json.null⟩, ⟨"b", Json.null⟩] := by
  exact claim_c6_malformed_segment_skipped _ _ [49] [50] [51] _ _ rfl
    (by decide) (by decide) (by decide) (by decide) (by decide) (by decide)
    (by decide) (by decide) (by decide)

/-- `BilibiliLiveConfig` from `config.rs`. -/
structure BilibiliLiveConfig where
  access_key : String
  access_secret : String
  app_id : Int
  id_code : Option String
  host : Option String
  heartbeat_interval_seconds : Nat
deriving Repr, DecidableEq

/-- `AnchorInfo` from `live/mod.rs`. -/
structure AnchorInfo where
  room_id : Option Int
  uname : Option String
  open_id : Option String
deriving Repr, DecidableEq

/-- `GameInfo` from `live/mod.rs`. -/
structure GameInfo where
  game_id : String
deriving Repr, DecidableEq

/-- `WebsocketInfo` from `live/mod.rs`. -/
structure WebsocketInfo where
  auth_body : String
  wss_link : List String
deriving Repr, DecidableEq

/-- `StartResponse` from `live/mod.rs`. -/
structure StartResponse where
  game_info : GameInfo
  websocket_info : WebsocketInfo
  anchor_info : AnchorInfo
deriving Repr, DecidableEq

/-- The `AgentError` variants reachable from `LiveManager::start` and
`stop` (`errors.rs`). -/
inductive AgentError where
  | unsupported (msg : String)
  | missingConfig (key : String)
  | other (msg : String)
deriving Repr, DecidableEq

/-- `LiveSessionInfo` from `live/mod.rs`; `started_at` is an abstract
clock reading. -/
structure LiveSessionInfo where
  game_id : String
  room_id : Int
  anchor_name : String
  anchor_open_id : Option String
  started_at : Int
deriving Repr, DecidableEq

/-- The manager-visible part of a `LiveSession` handle: its immutable
`info` snapshot (the shutdown channel and task handle are effects the
manager only forwards to). -/
structure LiveSession where
  info : LiveSessionInfo
deriving Repr, DecidableEq

/-- The mutable state of `LiveManager`: the configuration (held through
the REST client) and the single optional session handle.  The
`event_tx` / `broadcaster` channels play no role in start/stop control
flow. -/
structure LiveManager where
  config : BilibiliLiveConfig
  session : Option LiveSession
deriving Repr, DecidableEq

/-- Result and effect trace of one `LiveManager::start` call: the
returned value, the manager state afterwards, and whether the REST
`start` endpoint was reached. -/
structure StartOutcome where
  result : Except AgentError LiveSessionInfo
  state : LiveManager
  rest_called : Bool
deriving Repr

/-- `LiveManager::start` from `live/mod.rs`, with the REST `start`
call as the oracle `rest_start` and the session clock as `now`.
Mirrors the control flow: an already-present session errors first; a
missing (`None`) identity code errors before the REST call; then the
REST `start` runs, the first `wss_link` entry is required, the session
is spawned (`LiveSession::spawn` is infallible — connection failures
surface later inside the spawned task) and its handle stored. -/
def LiveManager.start (m : LiveManager)
    (rest_start : String → Except AgentError StartResponse) (now : Int) :
    StartOutcome :=
  if m.session.isSome then
    ⟨Except.error (AgentError.unsupported "直播长链已连接，先执行 live stop"), m, false⟩
  else
    match m.config.id_code with
    | none => ⟨Except.error (AgentError.missingConfig "live.bilibili.id_code"), m, false⟩
    | some code =>
      match rest_start code with
      | Except.error e => ⟨Except.error e, m, true⟩
      | Except.ok start =>
        match start.websocket_info.wss_link.head? with
        | none => ⟨Except.error (AgentError.other "B站返回的 wss_link 为空"), m, true⟩
        | some _ =>
          let info : LiveSessionInfo :=
            ⟨start.game_info.game_id, start.anchor_info.room_id.getD 0,
              start.anchor_info.uname.getD "Unknown", start.anchor_info.open_id, now⟩
          ⟨Except.ok info, { m with session := some ⟨info⟩ }, true⟩

/-- Result and effect trace of one `LiveManager::stop` call. -/
structure StopOutcome where
  result : Except AgentError (Option LiveSessionInfo)
  state : LiveManager
  end_called : Bool
deriving Repr

/-- `LiveManager::stop` from `live/mod.rs`, with the REST `end` call
(the tail of `LiveSession::shutdown`, applied to the session's
`game_id`) as the oracle `rest_end`.  Mirrors the control flow:
`self.session.take()` removes the handle before teardown begins;
without a session the call returns `Ok(None)`; otherwise the shutdown
signal and task join only log, and the `end` outcome decides between
`Ok(Some(info))` and the propagated error — with the handle already
removed either way. -/
def LiveManager.stop (m : LiveManager)
    (rest_end : String → Except AgentError Unit) : StopOutcome :=
  match m.session with
  | none => ⟨Except.ok none, m, false⟩
  | some session =>
    let m2 : LiveManager := { m with session := none }
    match rest_end session.info.game_id with
    | Except.error e => ⟨Except.error e, m2, true⟩
    | Except.ok _ => ⟨Except.ok (some session.info), m2, true⟩

/-- `LiveManager::info` from `live/mod.rs`: pure read of the current
session info. -/
def LiveManager.info (m : LiveManager) : Option LiveSessionInfo :=
  m.session.map LiveSession.info

/-- C7: with a session already active, `start` returns the
"already connected" error, leaves the manager (and the stored session
handle) untouched, and never reaches the REST `start` call. -/
theorem claim_c7_start_rejected_when_active (m : LiveManager)
    (rest_start : String → Except AgentError StartResponse) (now : Int)
    (s : LiveSession) (h : m.session = some s) :
    (m.start rest_start now).result =
        Except.error (AgentError.unsupported "直播长链已连接，先执行 live stop") ∧
      (m.start rest_start now).state = m ∧
      (m.start rest_start now).rest_called = false := by
  simp [LiveManager.start, h]

/-- Witness for C7 on a concrete active manager and a REST oracle that
would succeed if it were (wrongly) consulted. -/
theorem claim_c7_start_rejected_when_active_witness :
    ((⟨⟨"k", "sec", 1, some "c", none, 20⟩,
        some ⟨⟨"g", 1, "a", none, 0⟩⟩⟩ : LiveManager).start
          (fun _ => Except.ok ⟨⟨"g2"⟩, ⟨"auth", ["wss://h"]⟩, ⟨none, none, none⟩⟩)
          7).result =
        Except.error (AgentError.unsupported "直播长链已连接，先执行 live stop") ∧
      ((⟨⟨"k", "sec", 1, some "c", none, 20⟩,
          some ⟨⟨"g", 1, "a", none, 0⟩⟩⟩ : LiveManager).start
            (fun _ => Except.ok ⟨⟨"g2"⟩, ⟨"auth", ["wss://h"]⟩, ⟨none, none, none⟩⟩)
            7).state =
        ⟨⟨"k", "sec", 1, some "c", none, 20⟩, some ⟨⟨"g", 1, "a", none, 0⟩⟩⟩ ∧
      ((⟨⟨"k", "sec", 1, some "c", none, 20⟩,
          some ⟨⟨"g", 1, "a", none, 0⟩⟩⟩ : LiveManager).start
            (fun _ => Except.ok ⟨⟨"g2"⟩, ⟨"auth", ["wss://h"]⟩, ⟨none, none, none⟩⟩)
            7).rest_called = false :=
  claim_c7_start_rejected_when_active _ _ 7 ⟨⟨"g", 1, "a", none, 0⟩⟩ rfl

/-- C8 (amended): `start` fails with the missing-configuration error,
before any session exists and before any REST call, exactly when the
identity code is absent (`None`); an empty-string identity code is not
rejected locally (see `claim_c8_counterexample`). -/
theorem claim_c8_missing_id_code (m : LiveManager)
    (rest_start : String → Except AgentError StartResponse) (now : Int)
    (hnos : m.session = none) (hid : m.config.id_code = none) :
    (m.start rest_start now).result =
        Except.error (AgentError.missingConfig "live.bilibili.id_code") ∧
      (m.start rest_start now).state = m ∧
      (m.start rest_start now).rest_called = false := by
  simp [LiveManager.start, hnos, hid]

/-- Witness for C8 on a concrete manager lacking an identity code. -/
theorem claim_c8_missing_id_code_witness :
    ((⟨⟨"k", "sec", 1, none, none, 20⟩, none⟩ : LiveManager).start
        (fun _ => Except.error (AgentError.other "unreached")) 0).result =
        Except.error (AgentError.missingConfig "live.bilibili.id_code") ∧
      ((⟨⟨"k", "sec", 1, none, none, 20⟩, none⟩ : LiveManager).start
          (fun _ => Except.error (AgentError.other "unreached")) 0).state =
        ⟨⟨"k", "sec", 1, none, none, 20⟩, none⟩ ∧
      ((⟨⟨"k", "sec", 1, none, none, 20⟩, none⟩ : LiveManager).start
          (fun _ => Except.error (AgentError.other "unreached")) 0).rest_called = false :=
  claim_c8_missing_id_code _ _ 0 rfl rfl

/-- C8 counterexample: with the identity code present but equal to the
empty string, `start` does not fail with a configuration error — it
reaches the REST `start` call (with the empty code) and succeeds. -/
theorem claim_c8_counterexample :
    ((⟨⟨"k", "sec", 1, some "", none, 20⟩, none⟩ : LiveManager).start
        (fun _ => Except.ok ⟨⟨"g"⟩, ⟨"auth", ["wss://h/sub"]⟩, ⟨none, none, none⟩⟩)
        0).rest_called = true ∧
      ((⟨⟨"k", "sec", 1, some "", none, 20⟩, none⟩ : LiveManager).start
          (fun _ => Except.ok ⟨⟨"g"⟩, ⟨"auth", ["wss://h/sub"]⟩, ⟨none, none, none⟩⟩)
          0).result = Except.ok ⟨"g", 0, "Unknown", none, 0⟩ :=
  ⟨rfl, rfl⟩

/-- A stop call on a session-free manager is the no-session outcome. -/
theorem stop_no_session (m : LiveManager) (rest_end : String → Except AgentError Unit)
    (h : m.session = none) :
    m.stop rest_end = ⟨Except.ok none, m, false⟩ := by
  simp [LiveManager.stop, h]

/-- C9: `stop` with no active session returns the "no session" outcome
(`Ok(None)`, not an error), leaves the state unchanged and calls no
REST `end`; and immediately after any `stop`, a second `stop` again
returns `Ok(None)` and changes nothing. -/
theorem claim_c9_stop_idempotent :
    (∀ (m : LiveManager) (rest_end : String → Except AgentError Unit),
        m.session = none →
        (m.stop rest_end).result = Except.ok none ∧
          (m.stop rest_end).state = m ∧
          (m.stop rest_end).end_called = false) ∧
    (∀ (m : LiveManager) (e1 e2 : String → Except AgentError Unit),
        ((m.stop e1).state.stop e2).result = Except.ok none ∧
          ((m.stop e1).state.stop e2).state = (m.stop e1).state) := by
  constructor
  · intro m rest_end h
    rw [stop_no_session m rest_end h]
    exact ⟨rfl, rfl, rfl⟩
  · intro m e1 e2
    have hnone : (m.stop e1).state.session = none := by
      cases hs : m.session with
      | none => simp [LiveManager.stop, hs]
      | some s =>
        cases he : e1 s.info.game_id <;> simp [LiveManager.stop, hs, he]
    rw [stop_no_session _ e2 hnone]
    exact ⟨rfl, rfl⟩

/-- Witness for C9: an idle manager, then a stop-stop sequence whose
first stop tears down a session with a failing REST `end`. -/
theorem claim_c9_stop_idempotent_witness :
    (((⟨⟨"k", "sec", 1, some "c", none, 20⟩, none⟩ : LiveManager).stop
          (fun _ => Except.ok ())).result = Except.ok none ∧
        ((⟨⟨"k", "sec", 1, some "c", none, 20⟩, none⟩ : LiveManager).stop
            (fun _ => Except.ok ())).state =
          ⟨⟨"k", "sec", 1, some "c", none, 20⟩, none⟩ ∧
        ((⟨⟨"k", "sec", 1, some "c", none, 20⟩, none⟩ : LiveManager).stop
            (fun _ => Except.ok ())).end_called = false) ∧
      ((((⟨⟨"k", "sec", 1, some "c", none, 20⟩,
            some ⟨⟨"g", 1, "a", none, 0⟩⟩⟩ : LiveManager).stop
              (fun _ => Except.error (AgentError.other "end failed"))).state.stop
            (fun _ => Except.ok ())).result = Except.ok none ∧
        (((⟨⟨"k", "sec", 1, some "c", none, 20⟩,
            some ⟨⟨"g", 1, "a", none, 0⟩⟩⟩ : LiveManager).stop
              (fun _ => Except.error (AgentError.other "end failed"))).state.stop
            (fun _ => Except.ok ())).state =
          ((⟨⟨"k", "sec", 1, some "c", none, 20⟩,
            some ⟨⟨"g", 1, "a", none, 0⟩⟩⟩ : LiveManager).stop
              (fun _ => Except.error (AgentError.other "end failed"))).state) :=
  ⟨claim_c9_stop_idempotent.1 _ (fun _ => Except.ok ()) rfl,
    claim_c9_stop_idempotent.2 _ _ _⟩

/-- C10: after `stop` on a manager with an active session the handle is
gone — `session` is `None` and `info()` reports no session — for every
REST `end` outcome, in particular when `end` fails and `stop` itself
returns that error; and the `end` teardown call does run. -/
theorem claim_c10_stop_clears_session (m : LiveManager)
    (rest_end : String → Except AgentError Unit) (s : LiveSession)
    (h : m.session = some s) :
    (m.stop rest_end).state.session = none ∧
      (m.stop rest_end).state.info = none ∧
      (m.stop rest_end).end_called = true := by
  cases he : rest_end s.info.game_id <;>
    simp [LiveManager.stop, LiveManager.info, h, he]

/-- Witness for C10 with a failing REST `end` call (so `stop` itself
returns an error while the session handle is already gone). -/
theorem claim_c10_stop_clears_session_witness :
    (((⟨⟨"k", "sec", 1, some "c", none, 20⟩,
        some ⟨⟨"g", 1, "a", none, 0⟩⟩⟩ : LiveManager).stop
          (fun _ => Except.error (AgentError.other "end failed"))).state.session =
        none) ∧
      (((⟨⟨"k", "sec", 1, some "c", none, 20⟩,
          some ⟨⟨"g", 1, "a", none, 0⟩⟩⟩ : LiveManager).stop
            (fun _ => Except.error (AgentError.other "end failed"))).state.info =
        none) ∧
      (((⟨⟨"k", "sec", 1, some "c", none, 20⟩,
          some ⟨⟨"g", 1, "a", none, 0⟩⟩⟩ : LiveManager).stop
            (fun _ => Except.error (AgentError.other "end failed"))).end_called =
        true) :=
  claim_c10_stop_clears_session _ _ ⟨⟨"g", 1, "a", none, 0⟩⟩ rfl

/-- 32-bit modular addition. -/
def add32 (a b : Nat) : Nat := (a + b) % 2 ^ 32

/-- 32-bit complement. -/
def not32 (a : Nat) : Nat := a ^^^ (2 ^ 32 - 1)

/-- 32-bit rotate left. -/
def rotl32 (a s : Nat) : Nat := ((a <<< s) ||| (a >>> (32 - s))) % 2 ^ 32

/-- 32-bit rotate right. -/
def rotr32 (a s : Nat) : Nat := ((a >>> s) ||| (a <<< (32 - s))) % 2 ^ 32

/-- UTF-8 bytes of one character (what Rust `str::as_bytes` yields per
char). -/
def utf8Char (c : Char) : List Nat :=
  let n := c.toNat
  if n < 0x80 then [n]
  else if n < 0x800 then
    [0xC0 ||| (n >>> 6), 0x80 ||| (n &&& 0x3F)]
  else if n < 0x10000 then
    [0xE0 ||| (n >>> 12), 0x80 ||| ((n >>> 6) &&& 0x3F), 0x80 ||| (n &&& 0x3F)]
  else
    [0xF0 ||| (n >>> 18), 0x80 ||| ((n >>> 12) &&& 0x3F),
     0x80 ||| ((n >>> 6) &&& 0x3F), 0x80 ||| (n &&& 0x3F)]

/-- UTF-8 byte sequence of a string (Rust `str::as_bytes`). -/
def strBytes (s : String) : List Nat := s.data.flatMap utf8Char

/-- Little-endian value of a byte list. -/
def leN (l : List Nat) : Nat := l.foldr (fun b acc => acc * 256 + b) 0

/-- Split a list into chunks of `n` elements (`n > 0`); structurally
recursive on a fuel that the callers instantiate with the list length,
which suffices since every step consumes at least one element. -/
def chunksGo (n : Nat) : Nat → List Nat → List (List Nat)
  | _, [] => []
  | 0, _ => []
  | fuel + 1, b :: rest =>
    (b :: rest).take n :: chunksGo n fuel ((b :: rest).drop n)

/-- Split a byte list into 64-byte blocks. -/
def blocks64 (l : List Nat) : List (List Nat) := chunksGo 64 l.length l

/-- Little-endian 32-bit words of a byte list. -/
def leWords (l : List Nat) : List Nat := (chunksGo 4 l.length l).map leN

/-- Big-endian 32-bit words of a byte list. -/
def beWords (l : List Nat) : List Nat := (chunksGo 4 l.length l).map beN

/-- Four little-endian bytes of a 32-bit word. -/
def leBytes4 (n : Nat) : List Nat :=
  [n % 256, n / 2 ^ 8 % 256, n / 2 ^ 16 % 256, n / 2 ^ 24 % 256]

/-- Eight little-endian bytes of a 64-bit length. -/
def leBytes8 (n : Nat) : List Nat :=
  [n % 256, n / 2 ^ 8 % 256, n / 2 ^ 16 % 256, n / 2 ^ 24 % 256,
   n / 2 ^ 32 % 256, n / 2 ^ 40 % 256, n / 2 ^ 48 % 256, n / 2 ^ 56 % 256]

/-- Eight big-endian bytes of a 64-bit length. -/
def beBytes8 (n : Nat) : List Nat :=
  [n / 2 ^ 56 % 256, n / 2 ^ 48 % 256, n / 2 ^ 40 % 256, n / 2 ^ 32 % 256,
   n / 2 ^ 24 % 256, n / 2 ^ 16 % 256, n / 2 ^ 8 % 256, n % 256]

/-- Merkle-Damgard padding: `0x80`, zeros to 56 mod 64, then the 8-byte
bit length (little-endian for MD5, big-endian for SHA-256). -/
def padTo56 (msg : List Nat) : List Nat :=
  msg ++ 0x80 :: List.replicate ((64 + 55 - msg.length % 64) % 64) 0

/-- The 64 MD5 sine-derived constants (RFC 1321). -/
def md5K : List Nat :=
  [0xd76aa478, 0xe8c7b756, 0x242070db, 0xc1bdceee,
   0xf57c0faf, 0x4787c62a, 0xa8304613, 0xfd469501,
   0x698098d8, 0x8b44f7af, 0xffff5bb1, 0x895cd7be,
   0x6b901122, 0xfd987193, 0xa679438e, 0x49b40821,
   0xf61e2562, 0xc040b340, 0x265e5a51, 0xe9b6c7aa,
   0xd62f105d, 0x02441453, 0xd8a1e681, 0xe7d3fbc8,
   0x21e1cde6, 0xc33707d6, 0xf4d50d87, 0x455a14ed,
   0xa9e3e905, 0xfcefa3f8, 0x676f02d9, 0x8d2a4c8a,
   0xfffa3942, 0x8771f681, 0x6d9d6122, 0xfde5380c,
   0xa4beea44, 0x4bdecfa9, 0xf6bb4b60, 0xbebfbc70,
   0x289b7ec6, 0xeaa127fa, 0xd4ef3085, 0x04881d05,
   0xd9d4d039, 0xe6db99e5, 0x1fa27cf8, 0xc4ac5665,
   0xf4292244, 0x432aff97, 0xab9423a7, 0xfc93a039,
   0x655b59c3, 0x8f0ccc92, 0xffeff47d, 0x85845dd1,
   0x6fa87e4f, 0xfe2ce6e0, 0xa3014314, 0x4e0811a1,
   0xf7537e82, 0xbd3af235, 0x2ad7d2bb, 0xeb86d391]

/-- The 64 MD5 per-round left-rotation amounts (RFC 1321). -/
def md5S : List Nat :=
  [7, 12, 17, 22, 7, 12, 17, 22, 7, 12, 17, 22, 7, 12, 17, 22,
   5, 9, 14, 20, 5, 9, 14, 20, 5, 9, 14, 20, 5, 9, 14, 20,
   4, 11, 16, 23, 4, 11, 16, 23, 4, 11, 16, 23, 4, 11, 16, 23,
   6, 10, 15, 21, 6, 10, 15, 21, 6, 10, 15, 21, 6, 10, 15, 21]

/-- One MD5 round on state `(a, b, c, d)` with message words `M`. -/
def md5Round (M : List Nat) (st : Nat × Nat × Nat × Nat) (i : Nat) :
    Nat × Nat × Nat × Nat :=
  let a := st.1
  let b := st.2.1
  let c := st.2.2.1
  let d := st.2.2.2
  let f :=
    if i < 16 then (b &&& c) ||| (not32 b &&& d)
    else if i < 32 then (d &&& b) ||| (not32 d &&& c)
    else if i < 48 then b ^^^ c ^^^ d
    else c ^^^ (b ||| not32 d)
  let g :=
    if i < 16 then i
    else if i < 32 then (5 * i + 1) % 16
    else if i < 48 then (3 * i + 5) % 16
    else 7 * i % 16
  let tmp := add32 (add32 (add32 a f) (md5K.getD i 0)) (M.getD g 0)
  (d, add32 b (rotl32 tmp (md5S.getD i 0)), b, c)

/-- One MD5 block compression. -/
def md5Block (st : Nat × Nat × Nat × Nat) (block : List Nat) :
    Nat × Nat × Nat × Nat :=
  let M := leWords block
  let r := (List.range 64).foldl (md5Round M) st
  (add32 st.1 r.1, add32 st.2.1 r.2.1, add32 st.2.2.1 r.2.2.1, add32 st.2.2.2 r.2.2.2)

/-- MD5 digest (16 bytes) of a byte message (RFC 1321; the `md5` crate
behind `Md5::digest`). -/
def md5 (msg : List Nat) : List Nat :=
  let padded := padTo56 msg ++ leBytes8 (8 * msg.length % 2 ^ 64)
  let st := (blocks64 padded).foldl md5Block
    (0x67452301, 0xefcdab89, 0x98badcfe, 0x10325476)
  leBytes4 st.1 ++ leBytes4 st.2.1 ++ leBytes4 st.2.2.1 ++ leBytes4 st.2.2.2

/-- The 64 SHA-256 round constants (FIPS 180-4), written in decimal. -/
def sha256K : List Nat :=
  [1116352408, 1899447441, 3049323471, 3921009573,
   961987163, 1508970993, 2453635748, 2870763221,
   3624381080, 310598401, 607225278, 1426881987,
   1925078388, 2162078206, 2614888103, 3248222580,
   3835390401, 4022224774, 264347078, 604807628,
   770255983, 1249150122, 1555081692, 1996064986,
   2554220882, 2821834349, 2952996808, 3210313671,
   3336571891, 3584528711, 113926993, 338241895,
   666307205, 773529912, 1294757372, 1396182291,
   1695183700, 1986661051, 2177026350, 2456956037,
   2730485921, 2820302411, 3259730800, 3345764771,
   3516065817, 3600352804, 4094571909, 275423344,
   430227734, 506948616, 659060556, 883997877,
   958139571, 1322822218, 1537002063, 1747873779,
   1955562222, 2024104815, 2227730452, 2361852424,
   2428436474, 2756734187, 3204031479, 3329325298]

/-- SHA-256 message schedule: extend 16 words to 64. -/
def sha256Schedule (w : List Nat) : List Nat :=
  (List.range 48).foldl
    (fun w _ =>
      let n := w.length
      let w15 := w.getD (n - 15) 0
      let w2 := w.getD (n - 2) 0
      let s0 := rotr32 w15 7 ^^^ rotr32 w15 18 ^^^ (w15 >>> 3)
      let s1 := rotr32 w2 17 ^^^ rotr32 w2 19 ^^^ (w2 >>> 10)
      w ++ [(w.getD (n - 16) 0 + s0 + w.getD (n - 7) 0 + s1) % 2 ^ 32])
    w

/-- One SHA-256 round. -/
def sha256Round (W : List Nat)
    (st : Nat × Nat × Nat × Nat × Nat × Nat × Nat × Nat) (i : Nat) :
    Nat × Nat × Nat × Nat × Nat × Nat × Nat × Nat :=
  let a := st.1
  let b := st.2.1
  let c := st.2.2.1
  let d := st.2.2.2.1
  let e := st.2.2.2.2.1
  let f := st.2.2.2.2.2.1
  let g := st.2.2.2.2.2.2.1
  let h := st.2.2.2.2.2.2.2
  let S1 := rotr32 e 6 ^^^ rotr32 e 11 ^^^ rotr32 e 25
  let ch := (e &&& f) ^^^ ((not32 e) &&& g)
  let temp1 := (h + S1 + ch + sha256K.getD i 0 + W.getD i 0) % 2 ^ 32
  let S0 := rotr32 a 2 ^^^ rotr32 a 13 ^^^ rotr32 a 22
  let maj := (a &&& b) ^^^ ((a &&& c) ^^^ (b &&& c))
  let temp2 := (S0 + maj) % 2 ^ 32
  ((temp1 + temp2) % 2 ^ 32, a, b, c, (d + temp1) % 2 ^ 32, e, f, g)

/-- One SHA-256 block compression. -/
def sha256Block (st : Nat × Nat × Nat × Nat × Nat × Nat × Nat × Nat)
    (block : List Nat) : Nat × Nat × Nat × Nat × Nat × Nat × Nat × Nat :=
  let W := sha256Schedule (beWords block)
  let r := (List.range 64).foldl (sha256Round W) st
  (add32 st.1 r.1, add32 st.2.1 r.2.1, add32 st.2.2.1 r.2.2.1,
   add32 st.2.2.2.1 r.2.2.2.1, add32 st.2.2.2.2.1 r.2.2.2.2.1,
   add32 st.2.2.2.2.2.1 r.2.2.2.2.2.1, add32 st.2.2.2.2.2.2.1 r.2.2.2.2.2.2.1,
   add32 st.2.2.2.2.2.2.2 r.2.2.2.2.2.2.2)

/-- Four big-endian bytes of a 32-bit word. -/
def beBytes4 (n : Nat) : List Nat :=
  [n / 2 ^ 24 % 256, n / 2 ^ 16 % 256, n / 2 ^ 8 % 256, n % 256]

/-- SHA-256 digest (32 bytes) of a byte message (FIPS 180-4; the `sha2`
crate behind `Hmac<Sha256>`). -/
def sha256 (msg : List Nat) : List Nat :=
  let padded := padTo56 msg ++ beBytes8 (8 * msg.length % 2 ^ 64)
  let st := (blocks64 padded).foldl sha256Block
    (1779033703, 3144134277, 1013904242, 2773480762,
     1359893119, 2600822924, 528734635, 1541459225)
  beBytes4 st.1 ++ beBytes4 st.2.1 ++ beBytes4 st.2.2.1 ++ beBytes4 st.2.2.2.1 ++
    beBytes4 st.2.2.2.2.1 ++ beBytes4 st.2.2.2.2.2.1 ++
    beBytes4 st.2.2.2.2.2.2.1 ++ beBytes4 st.2.2.2.2.2.2.2

/-- HMAC-SHA256 (RFC 2104; the `hmac` crate). -/
def hmacSha256 (key msg : List Nat) : List Nat :=
  let k0 := if 64 < key.length then sha256 key else key
  let kp := k0 ++ List.replicate (64 - k0.length) 0
  let ipad := kp.map (fun b => b ^^^ 0x36)
  let opad := kp.map (fun b => b ^^^ 0x5c)
  sha256 (opad ++ sha256 (ipad ++ msg))

/-- Lowercase hexadecimal digit. -/
def hexDigit (n : Nat) : Char :=
  if n < 10 then Char.ofNat (48 + n) else Char.ofNat (87 + n)

/-- Lowercase hex string of a byte list (Rust `format!("{:x}", digest)`
and the per-byte `format!("{:02x}", byte)` loop). -/
def bytesToHex (l : List Nat) : String :=
  String.mk (l.flatMap (fun b => [hexDigit (b / 16), hexDigit (b % 16)]))


/-- `md5.update(body.as_bytes()); format!("{:x}", md5.finalize())` from
`build_headers`. -/
def md5_hex (body : String) : String := bytesToHex (md5 (strBytes body))

/-- The `header_str` format string of `build_headers` in `live/mod.rs`,
with the content hash, nonce and timestamp supplied by the caller. -/
def header_str (access_key content_md5 nonce : String) (ts : Int) : String :=
  "x-bili-accesskeyid:" ++ access_key ++ "\nx-bili-content-md5:" ++ content_md5 ++
    "\nx-bili-signature-method:HMAC-SHA256\nx-bili-signature-nonce:" ++ nonce ++
    "\nx-bili-signature-version:1.0\nx-bili-timestamp:" ++ toString ts

/-- `BilibiliLiveClient::build_headers` from `live/mod.rs`, as the list
of header (name, value) pairs it inserts, parameterized by the two
nondeterministic reads (the UUID nonce and the Unix timestamp).  The
signature is the lowercase-hex HMAC-SHA256, keyed by the access secret,
of `header_str`, and is placed in the Authorization header. -/
def build_headers (access_key access_secret body nonce : String) (ts : Int) :
    List (String × String) :=
  let content_md5 := md5_hex body
  let signature :=
    bytesToHex (hmacSha256 (strBytes access_secret)
      (strBytes (header_str access_key content_md5 nonce ts)))
  [("accept", "application/json"),
   ("content-type", "application/json"),
   ("x-bili-content-md5", content_md5),
   ("x-bili-timestamp", toString ts),
   ("x-bili-signature-method", "HMAC-SHA256"),
   ("x-bili-signature-nonce", nonce),
   ("x-bili-signature-version", "1.0"),
   ("x-bili-accesskeyid", access_key),
   ("authorization", signature)]

/-- The Authorization value specified by the amended claim: the
lowercase-hex HMAC-SHA256, keyed by the access secret, of the canonical
newline-joined string with the x-bili-prefixed field names
`"x-bili-accesskeyid:<access_key>\nx-bili-content-md5:<hash>\n`
`x-bili-signature-method:HMAC-SHA256\nx-bili-signature-nonce:<nonce>\n`
`x-bili-signature-version:1.0\nx-bili-timestamp:<ts>"`, with `<hash>`
the lowercase hex MD5 of the body bytes. -/
def amended_authorization (access_key access_secret body nonce : String)
    (ts : Int) : String :=
  bytesToHex (hmacSha256 (strBytes access_secret)
    (strBytes ("x-bili-accesskeyid:" ++ access_key ++ "\nx-bili-content-md5:" ++
      md5_hex body ++ "\nx-bili-signature-method:HMAC-SHA256\nx-bili-signature-nonce:" ++
      nonce ++ "\nx-bili-signature-version:1.0\nx-bili-timestamp:" ++ toString ts)))

/-- The Authorization value the frozen claim describes: the
lowercase-hex HMAC-SHA256, keyed by the access secret, of the canonical
string `"key:<access_key>\ncontent-md5:<hash>\nmethod:HMAC-SHA256\n`
`nonce:<nonce>\nversion:1.0\ntimestamp:<ts>"` with `<hash>` the
lowercase hex MD5 of the body bytes. -/
def claimed_authorization (access_key access_secret body nonce : String)
    (ts : Int) : String :=
  bytesToHex (hmacSha256 (strBytes access_secret)
    (strBytes ("key:" ++ access_key ++ "\ncontent-md5:" ++ md5_hex body ++
      "\nmethod:HMAC-SHA256\nnonce:" ++ nonce ++ "\nversion:1.0\ntimestamp:" ++
      toString ts)))

/-- C1 (amended): for every access key, access secret, request body,
nonce and timestamp, the Authorization header computed by
`build_headers` equals the lowercase-hex HMAC-SHA256, keyed by the
access secret, of the canonical newline-joined string with the
x-bili-prefixed field names (content hash = lowercase hex MD5 of the
body bytes), and the computation is deterministic in those five
inputs. -/
theorem claim_c1_authorization_signature
    (access_key access_secret body nonce : String) (ts : Int) :
    (build_headers access_key access_secret body nonce ts).lookup "authorization" =
        some (amended_authorization access_key access_secret body nonce ts) ∧
      build_headers access_key access_secret body nonce ts =
        build_headers access_key access_secret body nonce ts :=
  ⟨rfl, rfl⟩

set_option maxRecDepth 100000 in
/-- C1 counterexample: at access key "k", secret "s", empty body, nonce
"n" and timestamp 0, the Authorization header `build_headers` computes
differs from the HMAC over the abbreviated canonical string
(`key:`/`content-md5:`/`method:`/`nonce:`/`version:`/`timestamp:`) that
the claim spells out. -/
theorem claim_c1_counterexample :
    (build_headers "k" "s" "" "n" 0).lookup "authorization" ≠
      some (claimed_authorization "k" "s" "" "n" 0) := by
  decide

end VtuberAgent
